import Mathlib

/-!
Verification development for the autonomous trading decision engine in this
repository.  The definitions below are a shallow embedding of the relevant
source functions:

* the manipulation ("bundle") screener `detectBundleActivity`,
* the three deterministic strategy evaluators and their selection logic in
  `multi-strategy.ts`,
* the position-sizing core of `executeStrategyTrade`,
* the hivemind strategy generator `generateHivemindStrategy`, and
* the AI consensus quorum rule (modelled from the spec, since the consensus
  engine itself is not in the source tree).

Numbers that the source handles as JavaScript numbers are embedded as
rationals (`ℚ`); timestamps in milliseconds as integers; optional fields as
`Option`, mirroring the `??` / `||` defaulting of the source.
-/

namespace AgentBurn

/-! ## Bundle activity detection (`detectBundleActivity`) -/

/-- Severity levels of a bundle-detection result. -/
inductive Severity where
  | warning
  | critical
deriving DecidableEq, Repr

/-- Fields of the DexScreener pair object that `detectBundleActivity` reads.
`none` models an absent field (the source defaults it via `??` / `||`). -/
structure PairData where
  profileOrganicScore : Option ℚ
  profileQualityScore : Option ℚ
  txnsH24Buys : Option ℕ
  txnsH24Sells : Option ℕ
  liquidityUsd : Option ℚ
  volumeH24 : Option ℚ
  pairCreatedAt : Option ℤ
  priceChangeH1 : Option ℚ
  priceChangeH24 : Option ℚ
deriving DecidableEq, Repr

/-- Result shape returned by `detectBundleActivity`. -/
structure BundleDetectionResult where
  isSuspicious : Bool
  score : ℕ
  suspiciousWalletCount : ℕ
  avgTimeBetweenTxs : ℕ
  reasons : List String
  severity : Severity
deriving DecidableEq, Repr

/-- Milliseconds in 24 hours, as used by the source (`24 * 60 * 60 * 1000`). -/
def millisIn24h : ℕ := 24 * 60 * 60 * 1000

/-- Total 24h transaction count (`buys + sells`, each defaulted to 0). -/
def totalTxsOf (pd : PairData) : ℕ :=
  pd.txnsH24Buys.getD 0 + pd.txnsH24Sells.getD 0

/-- Whether the pair is less than 24 hours old at analysis time `now`
(milliseconds).  The source guards with JavaScript truthiness
(`pairCreatedAt ? now - pairCreatedAt : Infinity`), so both a missing
`pairCreatedAt` and a zero timestamp give age Infinity, hence never
"very new". -/
def isVeryNew (now : ℤ) (pd : PairData) : Bool :=
  match pd.pairCreatedAt with
  | some t => decide (t ≠ 0) && decide (now - t < (millisIn24h : ℤ))
  | none => false

/-- Accumulated (uncapped) suspicion score of `detectBundleActivity`.  Each
signal of the source contributes independently of the running total, so the
`score += ...` accumulation is embedded as a sum of guarded contributions. -/
def bundleRawScore (now : ℤ) (pd : PairData) : ℕ :=
  let organicScore := pd.profileOrganicScore.getD 50
  let qualityScore := pd.profileQualityScore.getD 50
  let buys := pd.txnsH24Buys.getD 0
  let totalTxs := totalTxsOf pd
  let liquidityUSD := pd.liquidityUsd.getD 0
  let volume24h := pd.volumeH24.getD 0
  let priceChange1h := pd.priceChangeH1.getD 0
  let priceChange24h := pd.priceChangeH24.getD 0
  (if organicScore < 30 then 40 else if organicScore < 50 then 20 else 0) +
  (if qualityScore < 30 then 30 else if qualityScore < 50 then 15 else 0) +
  (if 1000 < totalTxs ∧ organicScore < 40 then 25 else 0) +
  (if 100 < totalTxs ∧
      ((85 : ℚ)/100 < (buys : ℚ) / (totalTxs : ℚ) ∨
       (buys : ℚ) / (totalTxs : ℚ) < (15 : ℚ)/100) then 20 else 0) +
  (if 0 < liquidityUSD ∧ 0 < volume24h ∧ 20 < volume24h / liquidityUSD
     then 20 else 0) +
  (if isVeryNew now pd = true ∧ 100000 < volume24h ∧ organicScore < 50
     then 25 else 0) +
  (if 50 < |priceChange1h| ∨ 100 < |priceChange24h| then 15 else 0) +
  (if 0 < totalTxs ∧ millisIn24h / totalTxs < 5000 ∧ 500 < totalTxs
     then 20 else 0)

/-- Estimated average milliseconds between transactions (0 when there are no
transactions, matching the initial value in the source). -/
def avgTimeBetweenTxsOf (pd : PairData) : ℕ :=
  let totalTxs := totalTxsOf pd
  if 0 < totalTxs then millisIn24h / totalTxs else 0

/-- Estimated suspicious-wallet count: `floor(totalTxs * 0.3)` from signal 3,
raised to `floor(totalTxs * 0.4)` by the high-frequency signal. -/
def suspiciousWalletCountOf (pd : PairData) : ℕ :=
  let organicScore := pd.profileOrganicScore.getD 50
  let totalTxs := totalTxsOf pd
  let base := if 1000 < totalTxs ∧ organicScore < 40 then totalTxs * 3 / 10 else 0
  if 0 < totalTxs ∧ millisIn24h / totalTxs < 5000 ∧ 500 < totalTxs
    then max base (totalTxs * 4 / 10) else base

/-- Reason strings accumulated by the screener (numeric interpolation of the
source template strings is elided). -/
def bundleReasons (now : ℤ) (pd : PairData) : List String :=
  let organicScore := pd.profileOrganicScore.getD 50
  let qualityScore := pd.profileQualityScore.getD 50
  let buys := pd.txnsH24Buys.getD 0
  let totalTxs := totalTxsOf pd
  let liquidityUSD := pd.liquidityUsd.getD 0
  let volume24h := pd.volumeH24.getD 0
  let priceChange1h := pd.priceChangeH1.getD 0
  let priceChange24h := pd.priceChangeH24.getD 0
  (if organicScore < 30 then ["Very low organic trading - likely wash trading"]
   else if organicScore < 50 then ["Low organic trading - possible coordination"]
   else []) ++
  (if qualityScore < 30 then ["Very low quality score - red flag"]
   else if qualityScore < 50 then ["Low quality score - concerning"]
   else []) ++
  (if 1000 < totalTxs ∧ organicScore < 40 then
     ["High tx count with low organic score - likely bundles"] else []) ++
  (if 100 < totalTxs ∧
      ((85 : ℚ)/100 < (buys : ℚ) / (totalTxs : ℚ) ∨
       (buys : ℚ) / (totalTxs : ℚ) < (15 : ℚ)/100) then
     ["Extremely skewed buy/sell ratio - coordinated activity"] else []) ++
  (if 0 < liquidityUSD ∧ 0 < volume24h ∧ 20 < volume24h / liquidityUSD then
     ["Extremely high volume/liquidity ratio - possible bot activity"] else []) ++
  (if isVeryNew now pd = true ∧ 100000 < volume24h ∧ organicScore < 50 then
     ["New token with instant high volume and low organic score - pump pattern"]
   else []) ++
  (if 50 < |priceChange1h| ∨ 100 < |priceChange24h| then
     ["Extreme price volatility"] else []) ++
  (if 0 < totalTxs ∧ millisIn24h / totalTxs < 5000 ∧ 500 < totalTxs then
     ["Very high frequency trading - bot bundles"] else [])

/-- Result returned when no pair data could be obtained (the source returns
this both when the DexScreener fetch yields no pair and the caller supplied
none). -/
def insufficientDataResult : BundleDetectionResult :=
  { isSuspicious := false
    score := 0
    suspiciousWalletCount := 0
    avgTimeBetweenTxs := 0
    reasons := ["Insufficient data for bundle analysis"]
    severity := .warning }

/-- Result returned by the `catch` clause when the analysis throws. -/
def analysisFailedResult : BundleDetectionResult :=
  { isSuspicious := false
    score := 0
    suspiciousWalletCount := 0
    avgTimeBetweenTxs := 0
    reasons := ["Analysis failed - proceeding with caution"]
    severity := .warning }

/-- The pure core of `detectBundleActivity`: `now` is the analysis timestamp
(`Date.now()` in milliseconds) and `tokenData` the resolved pair data
(`none` when the DexScreener lookup produced nothing). -/
def detectBundleActivity (now : ℤ) (tokenData : Option PairData) :
    BundleDetectionResult :=
  match tokenData with
  | none => insufficientDataResult
  | some pd =>
    let score := min 100 (bundleRawScore now pd)
    { isSuspicious := decide (60 ≤ score)
      score := score
      suspiciousWalletCount := suspiciousWalletCountOf pd
      avgTimeBetweenTxs := avgTimeBetweenTxsOf pd
      reasons := bundleReasons now pd
      severity := if 70 ≤ score then .critical else .warning }

/-! ## Deterministic strategy evaluators (`multi-strategy.ts`) -/

/-- Strategy identifiers of `StrategySignal.strategy`. -/
inductive StrategyId where
  | MEAN_REVERSION
  | MOMENTUM_BREAKOUT
  | GRID_TRADING
deriving DecidableEq, Repr

/-- Signal actions of `StrategySignal.action`. -/
inductive StrategyAction where
  | BUY
  | SELL
  | HOLD
deriving DecidableEq, Repr

/-- The `StrategySignal` interface (the interpolated parts of `reasoning`
are elided). -/
structure StrategySignal where
  strategy : StrategyId
  action : StrategyAction
  confidence : ℚ
  reasoning : String
  positionSizePercent : ℚ
  profitTarget : ℚ
  stopLoss : ℚ
deriving DecidableEq, Repr

/-- The `StrategyConfig` interface. -/
structure StrategyConfig where
  meanReversionEnabled : Bool
  meanReversionRSIOversold : ℚ
  meanReversionRSIOverbought : ℚ
  meanReversionPositionSizePercent : ℚ
  meanReversionProfitTargetPercent : ℚ
  meanReversionStopLossPercent : ℚ
  momentumBreakoutEnabled : Bool
  momentumBreakoutPriceChangePercent : ℚ
  momentumBreakoutVolumeMultiplier : ℚ
  momentumBreakoutPositionSizePercent : ℚ
  momentumBreakoutProfitTargetPercent : ℚ
  momentumBreakoutStopLossPercent : ℚ
  gridTradingEnabled : Bool
  gridTradingLevels : ℕ
  gridTradingPriceGapPercent : ℚ
  gridTradingPerLevelSizePercent : ℚ
deriving DecidableEq, Repr

/-- The fields of `TokenMarketData` read by the strategy evaluators; `none`
models an absent field (defaulted via `??` in the source). -/
structure TokenMarketData where
  rsi : Option ℚ
  priceSOL : Option ℚ
  bollingerLower : Option ℚ
  bollingerUpper : Option ℚ
  priceChange1h : Option ℚ
  priceChange24h : Option ℚ
  volume24h : Option ℚ
deriving DecidableEq, Repr

/-- The fields of an open position read by the strategy evaluators.
`strategyType` is kept as a string because the source compares it with
string literals and AI positions carry other values there. -/
structure OpenPosition where
  strategyType : String
  peakProfitPercent : Option ℚ
  lastCheckProfitPercent : Option ℚ
deriving DecidableEq, Repr

/-- The `±15%` Bollinger tolerance constant. -/
def BOLLINGER_TOLERANCE : ℚ := 15/100

/-- The minimum valid price constant (`1e-9`). -/
def MIN_VALID_PRICE : ℚ := 1/1000000000

/-- Validity of Bollinger data: both bands and the price at least
`MIN_VALID_PRICE` and the upper band strictly above the lower. -/
def hasBollingerData (currentPrice bollingerLower bollingerUpper : ℚ) : Bool :=
  decide (MIN_VALID_PRICE ≤ bollingerLower) &&
  decide (MIN_VALID_PRICE ≤ bollingerUpper) &&
  decide (MIN_VALID_PRICE ≤ currentPrice) &&
  decide (bollingerLower < bollingerUpper)

/-- Whether the price sits within the `±15%` window around the lower band. -/
def nearLowerBand (currentPrice bollingerLower bollingerUpper : ℚ) : Bool :=
  hasBollingerData currentPrice bollingerLower bollingerUpper &&
  decide (bollingerLower * (1 - BOLLINGER_TOLERANCE) ≤ currentPrice) &&
  decide (currentPrice ≤ bollingerLower * (1 + BOLLINGER_TOLERANCE))

/-- Whether the price sits within the `±15%` window around the upper band. -/
def nearUpperBand (currentPrice bollingerLower bollingerUpper : ℚ) : Bool :=
  hasBollingerData currentPrice bollingerLower bollingerUpper &&
  decide (bollingerUpper * (1 - BOLLINGER_TOLERANCE) ≤ currentPrice) &&
  decide (currentPrice ≤ bollingerUpper * (1 + BOLLINGER_TOLERANCE))

/-- Strategy 1: `evaluateMeanReversion`. -/
def evaluateMeanReversion (token : TokenMarketData) (config : StrategyConfig)
    (currentPosition : Option OpenPosition) : Option StrategySignal :=
  if config.meanReversionEnabled = false then none else
  let rsi := token.rsi.getD 50
  let currentPrice := token.priceSOL.getD 0
  let bollingerLower := token.bollingerLower.getD 0
  let bollingerUpper := token.bollingerUpper.getD 0
  if rsi < config.meanReversionRSIOversold ∧ currentPosition = none then
    if hasBollingerData currentPrice bollingerLower bollingerUpper = true ∧
       nearLowerBand currentPrice bollingerLower bollingerUpper = false then
      none
    else
      let oversoldSeverity :=
        (config.meanReversionRSIOversold - rsi) / config.meanReversionRSIOversold
      let atSupportBonus : ℚ :=
        if nearLowerBand currentPrice bollingerLower bollingerUpper then 10 else 0
      some
        { strategy := .MEAN_REVERSION
          action := .BUY
          confidence := min 95 (60 + oversoldSeverity * 35 + atSupportBonus)
          reasoning := "RSI oversold - buying LOW, expecting bounce"
          positionSizePercent := config.meanReversionPositionSizePercent
          profitTarget := config.meanReversionProfitTargetPercent
          stopLoss := config.meanReversionStopLossPercent }
  else if config.meanReversionRSIOverbought < rsi ∧ currentPosition ≠ none then
    if hasBollingerData currentPrice bollingerLower bollingerUpper = true ∧
       nearUpperBand currentPrice bollingerLower bollingerUpper = false then
      none
    else
      let overboughtSeverity :=
        (rsi - config.meanReversionRSIOverbought) /
          (100 - config.meanReversionRSIOverbought)
      let atResistanceBonus : ℚ :=
        if nearUpperBand currentPrice bollingerLower bollingerUpper then 10 else 0
      some
        { strategy := .MEAN_REVERSION
          action := .SELL
          confidence := min 95 (65 + overboughtSeverity * 30 + atResistanceBonus)
          reasoning := "RSI overbought - selling HIGH, taking profit"
          positionSizePercent := 100
          profitTarget := 0
          stopLoss := 0 }
  else none

/-- Strategy 2: `evaluateMomentumBreakout`. -/
def evaluateMomentumBreakout (token : TokenMarketData) (config : StrategyConfig)
    (currentPosition : Option OpenPosition) : Option StrategySignal :=
  if config.momentumBreakoutEnabled = false then none else
  let priceChange1h := token.priceChange1h.getD 0
  let volume24h := token.volume24h.getD 0
  let priceChange24h := token.priceChange24h.getD 0
  let baseVolume : ℚ := 50000
  let volumeThreshold := baseVolume * config.momentumBreakoutVolumeMultiplier
  if config.momentumBreakoutPriceChangePercent ≤ priceChange1h ∧
     volumeThreshold ≤ volume24h ∧
     priceChange24h < priceChange1h ∧
     priceChange24h < 30 ∧
     currentPosition = none then
    let momentumStrength := priceChange1h / config.momentumBreakoutPriceChangePercent
    let dipRecoveryBonus : ℚ := if priceChange24h < priceChange1h then 5 else 0
    some
      { strategy := .MOMENTUM_BREAKOUT
        action := .BUY
        confidence := min 95 (65 + momentumStrength * 15 + dipRecoveryBonus)
        reasoning := "Momentum after dip - buying recovery LOW"
        positionSizePercent := config.momentumBreakoutPositionSizePercent
        profitTarget := config.momentumBreakoutProfitTargetPercent
        stopLoss := config.momentumBreakoutStopLossPercent }
  else
    match currentPosition with
    | some pos =>
      if pos.strategyType = "MOMENTUM_BREAKOUT" then
        let peakProfit := pos.peakProfitPercent.getD 0
        let currentProfit := pos.lastCheckProfitPercent.getD 0
        if config.momentumBreakoutProfitTargetPercent ≤ currentProfit then
          some
            { strategy := .MOMENTUM_BREAKOUT
              action := .SELL
              confidence := 95
              reasoning := "Momentum profit target HIT - selling at HIGH"
              positionSizePercent := 100
              profitTarget := 0
              stopLoss := 0 }
        else if 15 ≤ peakProfit ∧ currentProfit < peakProfit * (1/2) then
          some
            { strategy := .MOMENTUM_BREAKOUT
              action := .SELL
              confidence := 90
              reasoning := "Momentum fading - selling before reversal"
              positionSizePercent := 100
              profitTarget := 0
              stopLoss := 0 }
        else if priceChange1h < -5 then
          some
            { strategy := .MOMENTUM_BREAKOUT
              action := .SELL
              confidence := 85
              reasoning := "Momentum reversed - exiting before bigger loss"
              positionSizePercent := 100
              profitTarget := 0
              stopLoss := 0 }
        else none
      else none
    | none => none

/-- Strategy 3: `evaluateGridTrading`. -/
def evaluateGridTrading (token : TokenMarketData) (config : StrategyConfig)
    (currentPosition : Option OpenPosition) (currentPrice : Option ℚ) :
    Option StrategySignal :=
  if config.gridTradingEnabled = false then none else
  let priceChange1h := token.priceChange1h.getD 0
  let priceChange24h := token.priceChange24h.getD 0
  if ¬(|priceChange1h| < 5 ∧ |priceChange24h| < 15) then none
  else if priceChange1h < -2 ∧ -8 < priceChange1h ∧ currentPosition = none then
    some
      { strategy := .GRID_TRADING
        action := .BUY
        confidence := 75
        reasoning := "Grid entry - price dipped in ranging market"
        positionSizePercent := config.gridTradingPerLevelSizePercent
        profitTarget := config.gridTradingPriceGapPercent
        stopLoss := config.gridTradingPriceGapPercent * (3/2) }
  else
    match currentPosition with
    | some pos =>
      if pos.strategyType = "GRID_TRADING" ∧
         config.gridTradingPriceGapPercent ≤ pos.lastCheckProfitPercent.getD 0 then
        some
          { strategy := .GRID_TRADING
            action := .SELL
            confidence := 80
            reasoning := "Grid exit - hit profit target"
            positionSizePercent := 100
            profitTarget := 0
            stopLoss := 0 }
      else none
    | none => none

/-- The signals collected by `evaluateAllStrategies` before selection. -/
def collectedSignals (token : TokenMarketData) (config : StrategyConfig)
    (currentPosition : Option OpenPosition) (currentPrice : Option ℚ) :
    List StrategySignal :=
  ([evaluateMeanReversion token config currentPosition,
    evaluateMomentumBreakout token config currentPosition,
    evaluateGridTrading token config currentPosition currentPrice]).filterMap id

/-- The step of the source's `reduce`:
`current.confidence > prev.confidence ? current : prev`. -/
def pickHigher (prev current : StrategySignal) : StrategySignal :=
  if prev.confidence < current.confidence then current else prev

/-- The `reduce` of the source that keeps the signal of strictly greater
confidence (`none` on the empty list, where the source never calls it). -/
def reduceHighestConfidence : List StrategySignal → Option StrategySignal
  | [] => none
  | s :: rest => some (rest.foldl pickHigher s)

/-- The `sellSignals` filter of `evaluateAllStrategies`. -/
def sellSignals (token : TokenMarketData) (config : StrategyConfig)
    (currentPosition : Option OpenPosition) (currentPrice : Option ℚ) :
    List StrategySignal :=
  (collectedSignals token config currentPosition currentPrice).filter
    (fun s => s.action == StrategyAction.SELL)

/-- The `buySignals` filter of `evaluateAllStrategies`. -/
def buySignals (token : TokenMarketData) (config : StrategyConfig)
    (currentPosition : Option OpenPosition) (currentPrice : Option ℚ) :
    List StrategySignal :=
  (collectedSignals token config currentPosition currentPrice).filter
    (fun s => s.action == StrategyAction.BUY)

/-- `evaluateAllStrategies`: collect the three signals, prefer the
highest-confidence SELL when a position is open, otherwise the
highest-confidence BUY, otherwise nothing. -/
def evaluateAllStrategies (token : TokenMarketData) (config : StrategyConfig)
    (currentPosition : Option OpenPosition) (currentPrice : Option ℚ) :
    Option StrategySignal :=
  if (collectedSignals token config currentPosition currentPrice).length = 0
    then none
  else
    let sellPick : Option StrategySignal :=
      match currentPosition with
      | some _ =>
        reduceHighestConfidence
          (sellSignals token config currentPosition currentPrice)
      | none => none
    match sellPick with
    | some s => some s
    | none =>
      reduceHighestConfidence
        (buySignals token config currentPosition currentPrice)

/-! ## Position sizing in `executeStrategyTrade` (`strategy-trade-executor.ts`) -/

/-- The fee buffer kept aside before sizing a trade:
`Math.max(0.03, portfolio.totalValueSOL * 0.05)`. -/
def FEE_BUFFER (totalValueSOL : ℚ) : ℚ := max (3/100) (totalValueSOL * (5/100))

/-- The available-after-reserve balance:
`Math.max(0, actualBalance - FEE_BUFFER)`. -/
def availableBalance (actualBalance totalValueSOL : ℚ) : ℚ :=
  max 0 (actualBalance - FEE_BUFFER totalValueSOL)

/-- The trade amount before fees: the signal percentage of portfolio value,
clamped to 15% of the available balance. -/
def tradeAmountOf (actualBalance totalValueSOL positionSizePercent : ℚ) : ℚ :=
  min (totalValueSOL * (positionSizePercent / 100))
      (availableBalance actualBalance totalValueSOL * (15/100))

/-- Modelled from the spec: the platform-fee collaborator
(`deductPlatformFee` in `transaction-fee.ts`, which is not in the source
tree) deducts a 1% platform fee from the trade amount unless the wallet is
fee-exempt, per the caller's comment in `executeStrategyTrade`.  Returns the
fee taken. -/
def platformFeeOf (feeExempt : Bool) (tradeAmount : ℚ) : ℚ :=
  if feeExempt then 0 else tradeAmount * (1/100)

/-- The pure sizing core of `executeStrategyTrade` (lines 54-114): computes
the `amountSOL` recorded on a newly opened position, or `none` when the trade
is skipped because the sized amount falls below the 0.01 SOL minimum. -/
def executeStrategyTradeAmountSOL (actualBalance totalValueSOL
    positionSizePercent : ℚ) (feeExempt : Bool) : Option ℚ :=
  let tradeAmount := tradeAmountOf actualBalance totalValueSOL positionSizePercent
  if tradeAmount < 1/100 then none
  else some (tradeAmount - platformFeeOf feeExempt tradeAmount)

/-! ## Hivemind strategy generation (`hivemind-strategy.ts`, current revision) -/

/-- Market sentiment classifications. -/
inductive MarketSentiment where
  | bullish
  | bearish
  | neutral
  | volatile
deriving DecidableEq, Repr

/-- Risk levels of a hivemind strategy. -/
inductive RiskLevel where
  | conservative
  | moderate
  | aggressive
deriving DecidableEq, Repr

/-- The recent-performance summary consumed by `generateHivemindStrategy`. -/
structure RecentPerformance where
  winRate : ℚ
  avgProfit : ℚ
  totalTrades : ℕ
deriving DecidableEq, Repr

/-- The `HivemindStrategy` interface (the `reasoning` and `generatedAt`
bookkeeping fields are elided). -/
structure HivemindStrategy where
  marketSentiment : MarketSentiment
  preferredMarketCap : String
  minConfidenceThreshold : ℚ
  maxDailyTrades : ℕ
  profitTargetMultiplier : ℚ
  riskLevel : RiskLevel
  budgetPerTrade : ℚ
  minVolumeUSD : ℚ
  minLiquidityUSD : ℚ
  minOrganicScore : ℚ
  minQualityScore : ℚ
  minTransactions24h : ℕ
  minPotentialPercent : ℚ
deriving DecidableEq, Repr

/-- Sentiment classification and internal confidence chosen by
`generateHivemindStrategy` from recent performance. -/
def sentimentAndConfidence (recentPerformance : Option RecentPerformance) :
    MarketSentiment × ℚ :=
  match recentPerformance with
  | some p =>
    if 5 ≤ p.totalTrades then
      if 60 < p.winRate ∧ 20 < p.avgProfit then (.bullish, 75)
      else if p.winRate < 40 ∨ p.avgProfit < 0 then (.bearish, 70)
      else if 30 < |p.avgProfit| then (.volatile, 65)
      else (.neutral, 60)
    else (.neutral, 60)
  | none => (.neutral, 60)

/-- The before-adjustment parameter set chosen by the sentiment `switch` in
`generateStrategyFromSentiment` (conservative-compounding revision). -/
def sentimentBaseStrategy (sentiment : MarketSentiment) : HivemindStrategy :=
  match sentiment with
  | .bullish =>
    { marketSentiment := .bullish
      preferredMarketCap := "low"
      minConfidenceThreshold := 65
      maxDailyTrades := 5
      profitTargetMultiplier := 12/10
      riskLevel := .moderate
      budgetPerTrade := 4/100
      minVolumeUSD := 10000
      minLiquidityUSD := 6000
      minOrganicScore := 45
      minQualityScore := 35
      minTransactions24h := 25
      minPotentialPercent := 35 }
  | .bearish =>
    { marketSentiment := .bearish
      preferredMarketCap := "medium"
      minConfidenceThreshold := 80
      maxDailyTrades := 2
      profitTargetMultiplier := 4/10
      riskLevel := .conservative
      budgetPerTrade := 2/100
      minVolumeUSD := 50000
      minLiquidityUSD := 25000
      minOrganicScore := 65
      minQualityScore := 55
      minTransactions24h := 60
      minPotentialPercent := 20 }
  | .volatile =>
    { marketSentiment := .volatile
      preferredMarketCap := "low"
      minConfidenceThreshold := 72
      maxDailyTrades := 3
      profitTargetMultiplier := 6/10
      riskLevel := .conservative
      budgetPerTrade := 3/100
      minVolumeUSD := 20000
      minLiquidityUSD := 10000
      minOrganicScore := 55
      minQualityScore := 45
      minTransactions24h := 35
      minPotentialPercent := 30 }
  | .neutral =>
    { marketSentiment := .neutral
      preferredMarketCap := "low"
      minConfidenceThreshold := 68
      maxDailyTrades := 3
      profitTargetMultiplier := 8/10
      riskLevel := .conservative
      budgetPerTrade := 3/100
      minVolumeUSD := 15000
      minLiquidityUSD := 8000
      minOrganicScore := 50
      minQualityScore := 40
      minTransactions24h := 30
      minPotentialPercent := 25 }

/-- `generateStrategyFromSentiment`: the sentiment base parameters followed
by the confidence adjustments (aggression only at confidence ≥ 85, extra
caution below 55). -/
def generateStrategyFromSentiment (sentiment : MarketSentiment)
    (confidence : ℚ) : HivemindStrategy :=
  let base := sentimentBaseStrategy sentiment
  if 85 ≤ confidence then
    { base with
      maxDailyTrades := min 8 (base.maxDailyTrades + 3)
      minConfidenceThreshold := max 55 (base.minConfidenceThreshold - 10)
      budgetPerTrade := base.budgetPerTrade * (15/10)
      profitTargetMultiplier := base.profitTargetMultiplier * (13/10)
      riskLevel := if sentiment = .bearish then .moderate else .aggressive }
  else if confidence < 55 then
    { base with
      maxDailyTrades := max 1 (base.maxDailyTrades - 1)
      minConfidenceThreshold := min 85 (base.minConfidenceThreshold + 10)
      budgetPerTrade := base.budgetPerTrade * (7/10)
      profitTargetMultiplier := base.profitTargetMultiplier * (8/10) }
  else base

/-- `generateHivemindStrategy`: classify recent performance, then derive the
parameter set. -/
def generateHivemindStrategy (recentPerformance : Option RecentPerformance) :
    HivemindStrategy :=
  let sc := sentimentAndConfidence recentPerformance
  generateStrategyFromSentiment sc.1 sc.2

/-! ## AI consensus quorum

The consensus engine itself is not in the source tree (only the surrounding
documentation and callers are), so it is modelled from the spec below. -/

/-- Vote actions of an `AIVote`. -/
inductive ConsensusAction where
  | buy
  | sell
  | hold
deriving DecidableEq, Repr

/-- Modelled from the spec: an `AIVote` carries the provider id, an action,
a confidence in `[0,1]`, and an error flag (`error | null`). -/
structure AIVote where
  provider : String
  action : ConsensusAction
  confidence : ℚ
  hasError : Bool
deriving DecidableEq, Repr

/-- Modelled from the spec: a `ConsensusResult` aggregates an action, a
confidence, the contributing vote count and the votes themselves. -/
structure ConsensusResult where
  action : ConsensusAction
  confidence : ℚ
  contributingCount : ℕ
  votes : List AIVote
deriving DecidableEq, Repr

/-- The contributing votes of a cycle: non-absent (`some`) and non-error. -/
def contributingVotes (votes : List (Option AIVote)) : List AIVote :=
  (votes.filterMap id).filter (fun v => !v.hasError)

/-- The votes supporting a given action. -/
def votesFor (vs : List AIVote) (a : ConsensusAction) : List AIVote :=
  vs.filter (fun v => v.action == a)

/-- Highest confidence among the supporters of an action (0 when none). -/
def bestConfidenceFor (vs : List AIVote) (a : ConsensusAction) : ℚ :=
  (votesFor vs a).foldl (fun m v => max m v.confidence) 0

/-- Lexicographic comparison of (vote count, best supporter confidence),
used to rank actions: plurality wins, ties go to the action backed by the
highest-confidence vote. -/
def actionKeyLe (vs : List AIVote) (a b : ConsensusAction) : Prop :=
  (votesFor vs a).length < (votesFor vs b).length ∨
  ((votesFor vs a).length = (votesFor vs b).length ∧
   bestConfidenceFor vs a ≤ bestConfidenceFor vs b)

instance (vs : List AIVote) (a b : ConsensusAction) :
    Decidable (actionKeyLe vs a b) := by
  unfold actionKeyLe; infer_instance

/-- Modelled from the spec: the plurality action among the contributing
votes, ties resolved by the highest-confidence supporting vote (and in the
Lean model a residual complete tie falls back to hold). -/
def pluralityAction (vs : List AIVote) : ConsensusAction :=
  if actionKeyLe vs .sell .buy ∧ actionKeyLe vs .hold .buy then .buy
  else if actionKeyLe vs .buy .sell ∧ actionKeyLe vs .hold .sell then .sell
  else .hold

/-- Mean confidence of a list of votes (0 for the empty list). -/
def meanConfidence (vs : List AIVote) : ℚ :=
  if vs.length = 0 then 0
  else (vs.foldl (fun s v => s + v.confidence) 0) / (vs.length : ℚ)

/-- Modelled from the spec: merge one cycle's provider votes (absent
providers as `none`) into a `ConsensusResult`.  The plurality action wins,
but if its supporters do not reach the minimum quorum of contributing
(non-absent, non-error) providers the result is forced to hold, with the
aggregated confidence being the mean confidence of the winning votes. -/
def computeConsensus (votes : List (Option AIVote)) (minQuorum : ℕ) :
    ConsensusResult :=
  let vs := contributingVotes votes
  let winner := pluralityAction vs
  let supporters := votesFor vs winner
  if supporters.length < minQuorum then
    { action := .hold
      confidence := 0
      contributingCount := vs.length
      votes := vs }
  else
    { action := winner
      confidence := meanConfidence supporters
      contributingCount := vs.length
      votes := vs }

/-! ## Concrete inputs used by witnesses and counterexamples -/

/-- The blacklist scenario pair data: organicScore 15, qualityScore 20,
24h volume 2,000,000 USD, pair created at time 0, everything else absent. -/
def scenarioPair : PairData :=
  { profileOrganicScore := some 15
    profileQualityScore := some 20
    txnsH24Buys := none
    txnsH24Sells := none
    liquidityUsd := none
    volumeH24 := some 2000000
    pairCreatedAt := some 0
    priceChangeH1 := none
    priceChangeH24 := none }

/-- The blacklist scenario pair data with a chosen creation timestamp. -/
def scenarioPairAt (createdAt : ℤ) : PairData :=
  { scenarioPair with pairCreatedAt := some createdAt }

/-- A sample strategy configuration with the documented default thresholds. -/
def sampleConfig : StrategyConfig :=
  { meanReversionEnabled := true
    meanReversionRSIOversold := 30
    meanReversionRSIOverbought := 70
    meanReversionPositionSizePercent := 10
    meanReversionProfitTargetPercent := 15
    meanReversionStopLossPercent := 10
    momentumBreakoutEnabled := true
    momentumBreakoutPriceChangePercent := 15
    momentumBreakoutVolumeMultiplier := 2
    momentumBreakoutPositionSizePercent := 10
    momentumBreakoutProfitTargetPercent := 20
    momentumBreakoutStopLossPercent := 10
    gridTradingEnabled := true
    gridTradingLevels := 3
    gridTradingPriceGapPercent := 3
    gridTradingPerLevelSizePercent := 5 }

/-- A token with no market-data fields available. -/
def emptyToken : TokenMarketData :=
  { rsi := none
    priceSOL := none
    bollingerLower := none
    bollingerUpper := none
    priceChange1h := none
    priceChange24h := none
    volume24h := none }

/-- A token that is RSI-oversold (20) with price 30% above the lower
Bollinger band. -/
def oversoldFarFromSupportToken : TokenMarketData :=
  { rsi := some 20
    priceSOL := some (13/10)
    bollingerLower := some 1
    bollingerUpper := some 2
    priceChange1h := none
    priceChange24h := none
    volume24h := none }

/-- A momentum position whose profit faded from a 20% peak to 5%. -/
def fadedMomentumPosition : OpenPosition :=
  { strategyType := "MOMENTUM_BREAKOUT"
    peakProfitPercent := some 20
    lastCheckProfitPercent := some 5 }

/-- A momentum position sitting at 25% profit with a 20% peak. -/
def winningMomentumPosition : OpenPosition :=
  { strategyType := "MOMENTUM_BREAKOUT"
    peakProfitPercent := some 20
    lastCheckProfitPercent := some 25 }

/-- A grid position sitting at 5% profit. -/
def gridPosition : OpenPosition :=
  { strategyType := "GRID_TRADING"
    peakProfitPercent := none
    lastCheckProfitPercent := some 5 }

/-- A contributing buy vote, used to exercise the consensus quorum rule. -/
def sampleBuyVote : AIVote :=
  { provider := "p1"
    action := .buy
    confidence := 9/10
    hasError := false }

end AgentBurn

namespace AgentBurn

/-! ## Theorems -/

/-- Claim C4: for every completed analysis with available pair data,
`detectBundleActivity` flags the token as suspicious exactly when the score
is at least 60, reports severity critical exactly when the score is at least
70 (warning otherwise), and the returned score never exceeds 100. -/
theorem bundle_score_thresholds (now : ℤ) (pd : PairData) :
    ((detectBundleActivity now (some pd)).isSuspicious = true ↔
      60 ≤ (detectBundleActivity now (some pd)).score) ∧
    ((detectBundleActivity now (some pd)).severity = .critical ↔
      70 ≤ (detectBundleActivity now (some pd)).score) ∧
    (detectBundleActivity now (some pd)).score ≤ 100 := by
  refine ⟨?_, ?_, ?_⟩
  · simp [detectBundleActivity]
  · simp only [detectBundleActivity]
    split_ifs with h
    · simpa using h
    · simpa using h
  · exact Nat.min_le_left _ _

/-- Claim C8: when no token data can be obtained, and likewise when the
analysis throws, the screener fails open: not suspicious, score 0. -/
theorem bundle_fails_open (now : ℤ) :
    (detectBundleActivity now none).isSuspicious = false ∧
    (detectBundleActivity now none).score = 0 ∧
    analysisFailedResult.isSuspicious = false ∧
    analysisFailedResult.score = 0 :=
  ⟨rfl, rfl, rfl, rfl⟩

/-- Counterexample to claim C3 as stated: for the scenario pair (organic 15,
quality 20, 2M volume) whose pair was created exactly 24 hours before the
analysis, the age test `pairAge < 24h` is strictly false, the pump-pattern
signal does not fire, and the score is 70, not at least 85. -/
theorem bundle_exact_24h_score_is_70 :
    (detectBundleActivity (millisIn24h : ℤ) (some scenarioPair)).score = 70 ∧
    ¬ 85 ≤ (detectBundleActivity (millisIn24h : ℤ) (some scenarioPair)).score := by
  constructor <;> decide

/-- Claim C3 (amended): for the scenario pair with a nonzero creation
timestamp strictly less than 24 hours before the analysis,
`detectBundleActivity` scores at least 85 (in fact 95) with severity
critical. -/
theorem bundle_fresh_pair_critical (now createdAt : ℤ)
    (hnz : createdAt ≠ 0)
    (h : now - createdAt < (millisIn24h : ℤ)) :
    85 ≤ (detectBundleActivity now (some (scenarioPairAt createdAt))).score ∧
    (detectBundleActivity now (some (scenarioPairAt createdAt))).severity =
      .critical := by
  have hnew : isVeryNew now (scenarioPairAt createdAt) = true := by
    simp [isVeryNew, scenarioPairAt, scenarioPair, hnz]
    exact h
  have hraw : bundleRawScore now (scenarioPairAt createdAt) = 95 := by
    simp only [scenarioPairAt, scenarioPair] at hnew
    simp [bundleRawScore, scenarioPairAt, scenarioPair, totalTxsOf, hnew]
    norm_num
  constructor
  · simp [detectBundleActivity, hraw]
  · simp [detectBundleActivity, hraw]

/-- Witness for the amended claim C3 at a concrete fresh pair. -/
theorem bundle_fresh_pair_critical_witness :
    85 ≤ (detectBundleActivity 1000 (some (scenarioPairAt 1))).score ∧
    (detectBundleActivity 1000 (some (scenarioPairAt 1))).severity =
      .critical :=
  bundle_fresh_pair_critical 1000 1 (by decide) (by decide)

/-- Claim C2: whenever fewer than the configured minimum number of providers
contribute a non-absent, non-error vote, the consensus result is hold,
regardless of the vote content. -/
theorem consensus_quorum_forces_hold (votes : List (Option AIVote))
    (minQuorum : ℕ) (h : (contributingVotes votes).length < minQuorum) :
    (computeConsensus votes minQuorum).action = .hold := by
  have hle : (votesFor (contributingVotes votes)
      (pluralityAction (contributingVotes votes))).length ≤
      (contributingVotes votes).length := List.length_filter_le _ _
  simp only [computeConsensus]
  rw [if_pos (lt_of_le_of_lt hle h)]

/-- Witness for claim C2: a single high-confidence buy vote below a quorum
of two still yields hold. -/
theorem consensus_quorum_forces_hold_witness :
    (computeConsensus [some sampleBuyVote] 2).action = .hold :=
  consensus_quorum_forces_hold [some sampleBuyVote] 2 (by decide)

/-- Helper: the internal confidence chosen by `generateHivemindStrategy`
always lies between 55 and 75. -/
theorem sentimentConfidence_bounds (recentPerformance : Option RecentPerformance) :
    55 ≤ (sentimentAndConfidence recentPerformance).2 ∧
    (sentimentAndConfidence recentPerformance).2 ≤ 75 := by
  rcases recentPerformance with _ | p
  · constructor <;> norm_num [sentimentAndConfidence]
  · simp only [sentimentAndConfidence]
    split_ifs <;> constructor <;> norm_num

/-- Helper: at mid-range confidence (between 55 inclusive and 85 exclusive)
`generateStrategyFromSentiment` returns exactly the sentiment base
parameters. -/
theorem generateStrategy_mid_confidence (sentiment : MarketSentiment)
    (confidence : ℚ) (h1 : 55 ≤ confidence) (h2 : confidence < 85) :
    generateStrategyFromSentiment sentiment confidence =
      sentimentBaseStrategy sentiment := by
  simp only [generateStrategyFromSentiment]
  rw [if_neg (not_le.mpr h2), if_neg (not_lt.mpr h1)]

/-- Claim C10: `generateHivemindStrategy` assigns an internal confidence of
at most 75, so the confidence ≥ 85 aggression branch never fires: the
resulting risk level is never aggressive and the per-trade budget stays at
the sentiment default. -/
theorem hivemind_never_aggressive (recentPerformance : Option RecentPerformance) :
    (sentimentAndConfidence recentPerformance).2 ≤ 75 ∧
    (generateHivemindStrategy recentPerformance).riskLevel ≠ .aggressive ∧
    (generateHivemindStrategy recentPerformance).budgetPerTrade =
      (sentimentBaseStrategy (sentimentAndConfidence recentPerformance).1).budgetPerTrade := by
  obtain ⟨h55, h75⟩ := sentimentConfidence_bounds recentPerformance
  have hg : generateHivemindStrategy recentPerformance =
      sentimentBaseStrategy (sentimentAndConfidence recentPerformance).1 := by
    simp only [generateHivemindStrategy]
    exact generateStrategy_mid_confidence _ _ h55 (lt_of_le_of_lt h75 (by norm_num))
  refine ⟨h75, ?_, by rw [hg]⟩
  rw [hg]
  cases (sentimentAndConfidence recentPerformance).1 <;> decide

/-- Claim C1: whenever the sizing core of `executeStrategyTrade` opens a
position, the recorded `amountSOL` is at most the signal percentage of the
portfolio value, and at most 15% of the available-after-reserve balance
(wallet balance minus the fee buffer). -/
theorem strategy_trade_size_bounds (actualBalance totalValueSOL
    positionSizePercent : ℚ) (feeExempt : Bool) (a : ℚ)
    (h : executeStrategyTradeAmountSOL actualBalance totalValueSOL
      positionSizePercent feeExempt = some a) :
    a ≤ totalValueSOL * (positionSizePercent / 100) ∧
    a ≤ availableBalance actualBalance totalValueSOL * (15/100) := by
  simp only [executeStrategyTradeAmountSOL] at h
  split_ifs at h with hmin
  have ha : a = tradeAmountOf actualBalance totalValueSOL positionSizePercent -
      platformFeeOf feeExempt
        (tradeAmountOf actualBalance totalValueSOL positionSizePercent) :=
    (Option.some.inj h).symm
  have hta : (1:ℚ)/100 ≤
      tradeAmountOf actualBalance totalValueSOL positionSizePercent :=
    not_lt.mp hmin
  have hfee : 0 ≤ platformFeeOf feeExempt
      (tradeAmountOf actualBalance totalValueSOL positionSizePercent) := by
    cases feeExempt
    · simp [platformFeeOf]
      linarith
    · simp [platformFeeOf]
  have hata : a ≤ tradeAmountOf actualBalance totalValueSOL positionSizePercent := by
    rw [ha]; linarith
  constructor
  · exact le_trans hata (min_le_left _ _)
  · exact le_trans hata (min_le_right _ _)

/-- Witness for claim C1: with a 10 SOL balance and portfolio and a 10%
signal, the recorded amount 0.99 SOL respects both ceilings. -/
theorem strategy_trade_size_bounds_witness :
    (99/100 : ℚ) ≤ 10 * ((10:ℚ) / 100) ∧
    (99/100 : ℚ) ≤ availableBalance 10 10 * (15/100) :=
  strategy_trade_size_bounds 10 10 10 false (99/100) (by
    norm_num [executeStrategyTradeAmountSOL, tradeAmountOf, availableBalance,
      FEE_BUFFER, platformFeeOf])

/-- Helper: `pickHigher` returns one of its two arguments. -/
theorem pickHigher_cases (a b : StrategySignal) :
    pickHigher a b = a ∨ pickHigher a b = b := by
  unfold pickHigher
  split_ifs
  · exact Or.inr rfl
  · exact Or.inl rfl

/-- Helper: the confidence of `pickHigher a b` dominates that of `a`. -/
theorem pickHigher_le_left (a b : StrategySignal) :
    a.confidence ≤ (pickHigher a b).confidence := by
  unfold pickHigher
  split_ifs with h
  · exact le_of_lt h
  · exact le_refl _

/-- Helper: the confidence of `pickHigher a b` dominates that of `b`. -/
theorem pickHigher_le_right (a b : StrategySignal) :
    b.confidence ≤ (pickHigher a b).confidence := by
  unfold pickHigher
  split_ifs with h
  · exact le_refl _
  · exact not_lt.mp h

/-- Helper: folding `pickHigher` yields an element of the inputs whose
confidence dominates all of them. -/
theorem foldl_pickHigher_spec (rest : List StrategySignal) (a : StrategySignal) :
    (rest.foldl pickHigher a = a ∨ rest.foldl pickHigher a ∈ rest) ∧
    a.confidence ≤ (rest.foldl pickHigher a).confidence ∧
    ∀ t ∈ rest, t.confidence ≤ (rest.foldl pickHigher a).confidence := by
  induction rest generalizing a with
  | nil => exact ⟨Or.inl rfl, le_refl _, by simp⟩
  | cons b rest ih =>
    obtain ⟨hmem, hle, hall⟩ := ih (pickHigher a b)
    simp only [List.foldl_cons]
    refine ⟨?_, ?_, ?_⟩
    · rcases hmem with h | h
      · rcases pickHigher_cases a b with h2 | h2
        · exact Or.inl (by rw [h, h2])
        · exact Or.inr (by rw [h, h2]; exact List.mem_cons_self _ _)
      · exact Or.inr (List.mem_cons_of_mem _ h)
    · exact le_trans (pickHigher_le_left a b) hle
    · intro t ht
      rcases List.mem_cons.mp ht with h | h
      · rw [h]; exact le_trans (pickHigher_le_right a b) hle
      · exact hall t h

/-- Helper: a successful `reduceHighestConfidence` returns a member of the
list with maximal confidence. -/
theorem reduceHighestConfidence_spec (l : List StrategySignal)
    (s : StrategySignal) (h : reduceHighestConfidence l = some s) :
    s ∈ l ∧ ∀ t ∈ l, t.confidence ≤ s.confidence := by
  cases l with
  | nil => cases h
  | cons a rest =>
    have hs : rest.foldl pickHigher a = s := Option.some.inj h
    obtain ⟨hmem, hle, hall⟩ := foldl_pickHigher_spec rest a
    rw [hs] at hmem hle hall
    refine ⟨?_, ?_⟩
    · rcases hmem with h1 | h1
      · rw [h1]; exact List.mem_cons_self _ _
      · exact List.mem_cons_of_mem _ h1
    · intro t ht
      rcases List.mem_cons.mp ht with h1 | h1
      · rw [h1]; exact hle
      · exact hall t h1

/-- Helper: `reduceHighestConfidence` succeeds on a nonempty list. -/
theorem reduceHighestConfidence_ne_none (l : List StrategySignal)
    (h : l ≠ []) : ∃ s, reduceHighestConfidence l = some s := by
  cases l with
  | nil => exact absurd rfl h
  | cons a rest => exact ⟨_, rfl⟩

/-- Helper: with an open position, any signal `evaluateMeanReversion`
returns is a SELL. -/
theorem evaluateMeanReversion_position_sell (token : TokenMarketData)
    (config : StrategyConfig) (p : OpenPosition) (s : StrategySignal)
    (h : evaluateMeanReversion token config (some p) = some s) :
    s.action = .SELL := by
  simp only [evaluateMeanReversion] at h
  split_ifs at h
  all_goals try simp_all
  all_goals (subst h; rfl)

/-- Helper: with an open position, any signal `evaluateMomentumBreakout`
returns is a SELL. -/
theorem evaluateMomentumBreakout_position_sell (token : TokenMarketData)
    (config : StrategyConfig) (p : OpenPosition) (s : StrategySignal)
    (h : evaluateMomentumBreakout token config (some p) = some s) :
    s.action = .SELL := by
  simp only [evaluateMomentumBreakout] at h
  split_ifs at h
  all_goals try simp_all
  all_goals (subst h; rfl)

/-- Helper: with an open position, any signal `evaluateGridTrading`
returns is a SELL. -/
theorem evaluateGridTrading_position_sell (token : TokenMarketData)
    (config : StrategyConfig) (p : OpenPosition) (currentPrice : Option ℚ)
    (s : StrategySignal)
    (h : evaluateGridTrading token config (some p) currentPrice = some s) :
    s.action = .SELL := by
  simp only [evaluateGridTrading] at h
  split_ifs at h
  all_goals try simp_all
  all_goals (subst h; rfl)

/-- Helper: with an open position, every collected signal is a SELL. -/
theorem collectedSignals_position_sell (token : TokenMarketData)
    (config : StrategyConfig) (p : OpenPosition) (currentPrice : Option ℚ) :
    ∀ s ∈ collectedSignals token config (some p) currentPrice,
      s.action = .SELL := by
  intro s hs
  obtain ⟨o, ho, heq⟩ := List.mem_filterMap.mp hs
  simp only [List.mem_cons, List.not_mem_nil, or_false] at ho
  have heq2 : o = some s := heq
  rcases ho with h | h | h
  · rw [h] at heq2
    exact evaluateMeanReversion_position_sell _ _ _ _ heq2
  · rw [h] at heq2
    exact evaluateMomentumBreakout_position_sell _ _ _ _ heq2
  · rw [h] at heq2
    exact evaluateGridTrading_position_sell _ _ _ _ _ heq2

/-- Claim C9: with an open position, `evaluateAllStrategies` never returns
a BUY signal (each evaluator only buys when no position is open). -/
theorem open_position_never_buys (token : TokenMarketData)
    (config : StrategyConfig) (p : OpenPosition) (currentPrice : Option ℚ)
    (s : StrategySignal)
    (h : evaluateAllStrategies token config (some p) currentPrice = some s) :
    s.action ≠ .BUY := by
  unfold evaluateAllStrategies at h
  by_cases hlen : (collectedSignals token config (some p) currentPrice).length = 0
  · rw [if_pos hlen] at h
    exact absurd h (by simp)
  · rw [if_neg hlen] at h
    dsimp only at h
    rcases hred : reduceHighestConfidence
        (sellSignals token config (some p) currentPrice) with _ | s0
    · rw [hred] at h
      dsimp only at h
      have hbuy : buySignals token config (some p) currentPrice = [] := by
        refine List.filter_eq_nil_iff.mpr ?_
        intro a ha
        simp [collectedSignals_position_sell token config p currentPrice a ha]
      rw [hbuy] at h
      exact absurd h (by simp [reduceHighestConfidence])
    · rw [hred] at h
      dsimp only at h
      have hs0 : s0 = s := Option.some.inj h
      subst hs0
      have hmem := (reduceHighestConfidence_spec _ _ hred).1
      have hsell : s0.action = .SELL := by
        have := List.of_mem_filter hmem
        simpa using this
      simp [hsell]

/-- Witness for claim C9: with an open momentum position at its profit
target, the selected signal is a SELL, not a BUY. -/
theorem open_position_never_buys_witness :
    ({ strategy := .MOMENTUM_BREAKOUT
       action := .SELL
       confidence := 95
       reasoning := "Momentum profit target HIT - selling at HIGH"
       positionSizePercent := 100
       profitTarget := 0
       stopLoss := 0 } : StrategySignal).action ≠ .BUY :=
  open_position_never_buys emptyToken sampleConfig winningMomentumPosition
    none _ (by decide)

/-- Claim C5: with valid Bollinger data (price and both bands at least the
minimum valid price, upper band strictly above the lower), an oversold RSI
of 20, no open position, and the price 30% above the lower band (outside
the ±15% tolerance), `evaluateMeanReversion` returns no BUY signal: it
returns none. -/
theorem mean_reversion_requires_support (token : TokenMarketData)
    (config : StrategyConfig) (bl bu : ℚ)
    (hrsi : token.rsi = some 20)
    (hlt : (20:ℚ) < config.meanReversionRSIOversold)
    (hbl : token.bollingerLower = some bl)
    (hbu : token.bollingerUpper = some bu)
    (hp : token.priceSOL = some (bl * (13/10)))
    (hblv : MIN_VALID_PRICE ≤ bl)
    (hbuv : MIN_VALID_PRICE ≤ bu)
    (hord : bl < bu) :
    evaluateMeanReversion token config none = none := by
  have hpos : 0 < bl := lt_of_lt_of_le (by norm_num [MIN_VALID_PRICE]) hblv
  have hBB : hasBollingerData (bl * (13/10)) bl bu = true := by
    simp only [hasBollingerData, Bool.and_eq_true, decide_eq_true_eq]
    exact ⟨⟨⟨hblv, hbuv⟩, by linarith⟩, hord⟩
  have hfar : ¬(bl * (13/10) ≤ bl * (1 + BOLLINGER_TOLERANCE)) := by
    rw [BOLLINGER_TOLERANCE]
    push_neg
    nlinarith
  have hnear : nearLowerBand (bl * (13/10)) bl bu = false := by
    simp [nearLowerBand, hfar]
  by_cases h1 : config.meanReversionEnabled = false
  · simp [evaluateMeanReversion, h1]
  · simp only [evaluateMeanReversion, hrsi, hbl, hbu, hp, Option.getD_some]
    rw [if_neg h1, if_pos ⟨hlt, trivial⟩, if_pos ⟨hBB, hnear⟩]

/-- Witness for claim C5: RSI 20 with lower band 1, upper band 2 and price
1.3 yields no signal. -/
theorem mean_reversion_requires_support_witness :
    evaluateMeanReversion oversoldFarFromSupportToken sampleConfig none =
      none :=
  mean_reversion_requires_support oversoldFarFromSupportToken sampleConfig 1 2
    rfl (by norm_num [sampleConfig]) rfl rfl
    (by norm_num [oversoldFarFromSupportToken])
    (by norm_num [MIN_VALID_PRICE]) (by norm_num [MIN_VALID_PRICE])
    (by norm_num)

/-- Claim C6: for an open MOMENTUM_BREAKOUT position (momentum strategy
enabled) whose recorded peak profit is at least 15% and whose current
profit is below half of that peak, `evaluateMomentumBreakout` returns a
SELL signal. -/
theorem momentum_trailing_stop (token : TokenMarketData)
    (config : StrategyConfig) (p : OpenPosition) (pk cur : ℚ)
    (hen : config.momentumBreakoutEnabled = true)
    (hty : p.strategyType = "MOMENTUM_BREAKOUT")
    (hpk : p.peakProfitPercent = some pk)
    (hcur : p.lastCheckProfitPercent = some cur)
    (h15 : (15:ℚ) ≤ pk)
    (hhalf : cur < pk * (1/2)) :
    ∃ s, evaluateMomentumBreakout token config (some p) = some s ∧
      s.action = .SELL := by
  have hen2 : ¬(config.momentumBreakoutEnabled = false) := by simp [hen]
  simp only [evaluateMomentumBreakout, hpk, hcur, Option.getD_some]
  rw [if_neg hen2, if_neg (fun hc => Option.noConfusion hc.2.2.2.2)]
  try dsimp only
  rw [if_pos hty]
  by_cases htp : config.momentumBreakoutProfitTargetPercent ≤ cur
  · rw [if_pos htp]
    exact ⟨_, rfl, rfl⟩
  · rw [if_neg htp, if_pos ⟨h15, hhalf⟩]
    exact ⟨_, rfl, rfl⟩

/-- Witness for claim C6: a momentum position that peaked at 20% and sits
at 5% produces a SELL. -/
theorem momentum_trailing_stop_witness :
    ∃ s, evaluateMomentumBreakout emptyToken sampleConfig
        (some fadedMomentumPosition) = some s ∧ s.action = .SELL :=
  momentum_trailing_stop emptyToken sampleConfig fadedMomentumPosition 20 5
    rfl rfl rfl rfl (by norm_num) (by norm_num)

/-- Claim C7: `evaluateAllStrategies` returns the highest-confidence SELL
among the collected signals when a position is open and some strategy
sells; otherwise the highest-confidence BUY when one exists; and nothing
when no strategy emits a signal. -/
theorem strategy_signal_selection (token : TokenMarketData)
    (config : StrategyConfig) (currentPosition : Option OpenPosition)
    (currentPrice : Option ℚ) :
    (currentPosition.isSome = true →
      sellSignals token config currentPosition currentPrice ≠ [] →
      ∃ s, evaluateAllStrategies token config currentPosition currentPrice =
          some s ∧
        s ∈ sellSignals token config currentPosition currentPrice ∧
        ∀ t ∈ sellSignals token config currentPosition currentPrice,
          t.confidence ≤ s.confidence) ∧
    ((currentPosition = none ∨
        sellSignals token config currentPosition currentPrice = []) →
      buySignals token config currentPosition currentPrice ≠ [] →
      ∃ s, evaluateAllStrategies token config currentPosition currentPrice =
          some s ∧
        s ∈ buySignals token config currentPosition currentPrice ∧
        ∀ t ∈ buySignals token config currentPosition currentPrice,
          t.confidence ≤ s.confidence) ∧
    (collectedSignals token config currentPosition currentPrice = [] →
      evaluateAllStrategies token config currentPosition currentPrice =
        none) := by
  refine ⟨?_, ?_, ?_⟩
  · intro hpos hsne
    obtain ⟨p, hp⟩ := Option.isSome_iff_exists.mp hpos
    subst hp
    have hcne :
        ¬((collectedSignals token config (some p) currentPrice).length = 0) := by
      intro h0
      exact hsne (by simp [sellSignals, List.length_eq_zero.mp h0])
    obtain ⟨s0, hs0⟩ := reduceHighestConfidence_ne_none _ hsne
    obtain ⟨hmem, hmax⟩ := reduceHighestConfidence_spec _ _ hs0
    refine ⟨s0, ?_, hmem, hmax⟩
    unfold evaluateAllStrategies
    rw [if_neg hcne]
    dsimp only
    rw [hs0]
  · intro hcase hbne
    have hcne :
        ¬((collectedSignals token config currentPosition currentPrice).length
          = 0) := by
      intro h0
      exact hbne (by simp [buySignals, List.length_eq_zero.mp h0])
    obtain ⟨s0, hs0⟩ := reduceHighestConfidence_ne_none _ hbne
    obtain ⟨hmem, hmax⟩ := reduceHighestConfidence_spec _ _ hs0
    refine ⟨s0, ?_, hmem, hmax⟩
    rcases hcp : currentPosition with _ | p
    · subst hcp
      unfold evaluateAllStrategies
      rw [if_neg hcne]
      dsimp only
      rw [hs0]
    · subst hcp
      have hsell : sellSignals token config (some p) currentPrice = [] := by
        rcases hcase with h | h
        · exact absurd h (by simp)
        · exact h
      unfold evaluateAllStrategies
      rw [if_neg hcne]
      dsimp only
      rw [hsell]
      rw [show reduceHighestConfidence ([] : List StrategySignal) = none
        from rfl]
      dsimp only
      exact hs0
  · intro hc
    unfold evaluateAllStrategies
    rw [if_pos (by rw [hc]; rfl)]

/-- Witness for claim C7: with an open grid position at its profit gap, the
selection returns the grid SELL, the unique and hence maximal sell
signal. -/
theorem strategy_signal_selection_witness :
    ∃ s, evaluateAllStrategies emptyToken sampleConfig (some gridPosition)
        none = some s ∧
      s ∈ sellSignals emptyToken sampleConfig (some gridPosition) none ∧
      ∀ t ∈ sellSignals emptyToken sampleConfig (some gridPosition) none,
        t.confidence ≤ s.confidence :=
  (strategy_signal_selection emptyToken sampleConfig (some gridPosition)
    none).1 (by decide) (by decide)

end AgentBurn
